import Mathlib

/-!
# gowfs: the administrative WebHDFS operations of `fsadmin.go`

A shallow embedding of the methods of `FileSystem` declared in `fsadmin.go`.

* Go multiple results `(v, err)` are kept as a value together with an optional error
  (`none` is the nil error).
* The helpers `buildRequestUrl` and `requestHdfsData` are declared in other files of the
  package, and the HTTP client belongs to the standard library: the three are taken as
  parameters, gathered in `Env`.  Every call made to them is recorded, in order, in a trace.
* A run either returns or panics (nil pointer dereference); the trace is kept in both cases.
* `http.NewRequest` yields a nil request for a URL text that does not parse; the methods
  discard its error and use the request, so they panic on such a text.
-/

namespace Gowfs

/-! ## Go values -/

/-- Non-nil Go `error` value, identified by the text of its `Error()` method. -/
structure GoError where
  msg : String
  deriving DecidableEq, Repr

/-- The call `fmt.Errorf(format)` for a format string without verbs. -/
def fmt.Errorf (format : String) : GoError := ⟨format⟩

/-- Go slice: `none` is the nil slice, `some xs` a non-nil slice holding `xs`. -/
abbrev Slice (α : Type) := Option (List α)

/-- Go `map[string]string`, kept as an association list with one entry per key. -/
abbrev Params := List (String × String)

/-- The assignment `m[k] = v`: overwrite the entry of `k`, or add one. -/
def Params.set : Params → String → String → Params
  | [], k, v => [(k, v)]
  | (k0, v0) :: rest, k, v =>
    if k0 = k then (k, v) :: rest else (k0, v0) :: Params.set rest k v

/-- The lookup `m[k]` (with `none` for an absent key). -/
def Params.get : Params → String → Option String
  | [], _ => none
  | (k0, v0) :: rest, k => if k0 = k then some v0 else Params.get rest k

/-- The keys present in the map. -/
def Params.keys (m : Params) : List String := m.map Prod.fst

/-! ## Types declared outside `fsadmin.go` -/

/-- Modelled from the spec: the type `Path` is declared in another file; it "identifies a
filesystem resource by name/location".  The code reads only its field `Name`. -/
structure Path where
  Name : String := ""
  deriving DecidableEq, Repr

/-- Modelled from the spec: the type `Configuration` is declared in another file; it holds
the "base service endpoint, operating user, and any transport settings". -/
structure Configuration where
  Addr : String := ""
  User : String := ""
  deriving DecidableEq, Repr

/-- Modelled from the spec: the type `FileStatus` is declared in another file; a "metadata
record for one filesystem entry (type, size, permissions, timestamps, owner,
replication)". -/
structure FileStatus where
  FileType : String := ""
  Length : Int := 0
  Permission : String := ""
  AccessTime : Int := 0
  ModificationTime : Int := 0
  Owner : String := ""
  Replication : Int := 0
  deriving DecidableEq, Repr

/-- Modelled from the spec: the type `ContentSummary` is declared in another file;
"aggregate counts (file/dir counts, total size) under a path". -/
structure ContentSummary where
  DirectoryCount : Int := 0
  FileCount : Int := 0
  Length : Int := 0
  deriving DecidableEq, Repr

/-- Modelled from the spec: the type `FileChecksum` is declared in another file; "checksum
algorithm identifier, length, and opaque checksum bytes for a file". -/
structure FileChecksum where
  Algorithm : String := ""
  Length : Int := 0
  Bytes : String := ""
  deriving DecidableEq, Repr

/-- Modelled from the spec: the wrapper of the slice read as
`hdfsData.FileStatuses.FileStatus`; its declaration is in another file. -/
structure FileStatuses where
  FileStatus : Slice FileStatus := none
  deriving DecidableEq, Repr

/-- Modelled from the spec: the decoded JSON envelope returned by `requestHdfsData`; its
declaration is in another file.  The fields are the ones `fsadmin.go` reads. -/
structure HdfsJsonData where
  Boolean : Bool := false
  FileStatus : FileStatus := {}
  FileStatuses : FileStatuses := {}
  ContentSummary : ContentSummary := {}
  FileChecksum : FileChecksum := {}
  deriving DecidableEq, Repr

/-- Modelled from the spec: the operation names of the wire protocol ("RENAME, MKDIRS,
CREATESYMLINK, GETFILESTATUS, LISTSTATUS, GETCONTENTSUMMARY, GETFILECHECKSUM"); the
constants are declared in another file. -/
def OP_RENAME : String := "RENAME"

/-- Modelled from the spec: see `OP_RENAME`. -/
def OP_MKDIRS : String := "MKDIRS"

/-- Modelled from the spec: see `OP_RENAME`. -/
def OP_CREATESYMLINK : String := "CREATESYMLINK"

/-- Modelled from the spec: see `OP_RENAME`. -/
def OP_GETFILESTATUS : String := "GETFILESTATUS"

/-- Modelled from the spec: see `OP_RENAME`. -/
def OP_LISTSTATUS : String := "LISTSTATUS"

/-- Modelled from the spec: see `OP_RENAME`. -/
def OP_GETCONTENTSUMMARY : String := "GETCONTENTSUMMARY"

/-- Modelled from the spec: see `OP_RENAME`. -/
def OP_GETFILECHECKSUM : String := "GETFILECHECKSUM"

/-! ## Standard library: `net/url`, `net/http`, `strconv` -/

/-- The `*url.URL` produced by `buildRequestUrl`, identified by its text. -/
structure URL where
  text : String
  deriving DecidableEq, Repr

/-- The method `(*url.URL).String`. -/
def URL.String (u : URL) : String := u.text

/-- The `http.Client` held by a `FileSystem`. -/
structure Client where
  Timeout : Nat := 0
  deriving DecidableEq, Repr

/-- The `http.Request` built by `http.NewRequest`: verb, target and optional body. -/
structure Request where
  Method : String
  URL : String
  Body : Option String
  deriving DecidableEq, Repr

/-- The `http.Response` handed back by a completed exchange. -/
structure Response where
  StatusCode : Nat
  Body : String
  deriving DecidableEq, Repr

/-- The call `http.NewRequest(method, url, body)` for a valid method (`GET`, `PUT`): the
text `url` is parsed; when it parses, the result is the request and a nil error, and
when it does not, the result is a nil request and the error of the parser.  The function
`parse` stands for `url.Parse`: it gives the error reported for a text, `none` when the
text parses. -/
def http.NewRequest (parse : String → Option GoError) (method url : String)
    (body : Option String) : Option Request × Option GoError :=
  match parse url with
  | none => (some { Method := method, URL := url, Body := body }, none)
  | some err => (none, some err)

/-- The call `strconv.FormatBool(b)`. -/
def strconv.FormatBool (b : Bool) : String := if b then "true" else "false"

/-- The call `strconv.FormatInt(i, base)`: a minus sign for a negative `i`, then the
digits of the magnitude of `i` in `base`, most significant first. -/
def strconv.FormatInt (i : Int) (base : Nat) : String :=
  if i < 0 then String.mk ('-' :: Nat.toDigits base i.natAbs)
  else String.mk (Nat.toDigits base i.natAbs)

/-- The conversion `int64(fm)` of an `os.FileMode` (an unsigned 32-bit value). -/
def int64 (fm : Nat) : Int := Int.ofNat (fm % 2 ^ 32)

/-! ## The client and its environment -/

/-- The receiver type `FileSystem`: a configuration and an HTTP client. -/
structure FileSystem where
  Config : Configuration
  client : Client
  deriving DecidableEq, Repr

/-- The code `fsadmin.go` calls but does not define: the package helpers
`buildRequestUrl` and `requestHdfsData`, the method `Do` of the HTTP client, which
yields a response pointer (`none` is nil) and an error (`none` is nil), and the URL
parser behind `http.NewRequest`, which yields the error it reports for a text (`none`
when the text parses). -/
structure Env where
  urlParse : String → Option GoError
  buildRequestUrl : Configuration → Path → Params → Except GoError URL
  requestHdfsData : Client → Request → Except GoError HdfsJsonData
  clientDo : Client → Request → Option Response × Option GoError

/-- One call leaving `fsadmin.go`. -/
inductive Event where
  | buildRequestUrl (conf : Configuration) (p : Path) (params : Params)
  | requestHdfsData (client : Client) (req : Request)
  | clientDo (client : Client) (req : Request)
  | bodyClose (rsp : Response)
  deriving DecidableEq, Repr

/-- How a call ends: it returns the pair `(value, err)`, or it panics. -/
inductive Outcome (α : Type) where
  | ret (value : α) (err : Option GoError)
  | panic (reason : String)
  deriving DecidableEq, Repr

/-- A finished call: how it ended and the calls it made, in order. -/
structure Exec (α : Type) where
  outcome : Outcome α
  trace : List Event
  deriving DecidableEq, Repr

/-- The HTTP requests submitted during a run, through `requestHdfsData` or `client.Do`. -/
def requests : List Event → List Request
  | [] => []
  | Event.requestHdfsData _ req :: rest => req :: requests rest
  | Event.clientDo _ req :: rest => req :: requests rest
  | _ :: rest => requests rest

/-- The arguments of the calls to `buildRequestUrl` made during a run. -/
def urlBuilds : List Event → List (Configuration × Path × Params)
  | [] => []
  | Event.buildRequestUrl conf p params :: rest => (conf, p, params) :: urlBuilds rest
  | _ :: rest => urlBuilds rest

/-! ## The methods of `fsadmin.go` -/

/-- The method `Rename`.  The error of `http.NewRequest` is discarded (`req, _ :=`) and
`*req` is evaluated to call `requestHdfsData`, so a nil request panics there. -/
def FileSystem.Rename (env : Env) (fs : FileSystem) (source destination : Path) :
    Exec Bool :=
  let params : Params := [("op", OP_RENAME)]
  if source.Name = "" ∨ destination.Name = "" then
    ⟨.ret false (some (fmt.Errorf
      "Rename() - params source and destination cannot be empty.")), []⟩
  else
    let params := params.set "destination" destination.Name
    match env.buildRequestUrl fs.Config source params with
    | .error err => ⟨.ret false (some err), [.buildRequestUrl fs.Config source params]⟩
    | .ok u =>
      match (http.NewRequest env.urlParse "PUT" u.String none).1 with
      | none =>
        ⟨.panic "invalid memory address or nil pointer dereference",
          [.buildRequestUrl fs.Config source params]⟩
      | some req =>
        match env.requestHdfsData fs.client req with
        | .error err =>
          ⟨.ret false (some err),
            [.buildRequestUrl fs.Config source params, .requestHdfsData fs.client req]⟩
        | .ok hdfsData =>
          ⟨.ret hdfsData.Boolean none,
            [.buildRequestUrl fs.Config source params, .requestHdfsData fs.client req]⟩

/-- The method `Delete`. -/
def FileSystem.Delete (_fs : FileSystem) (_p : Path) (_recursive : Bool) : Exec Bool :=
  ⟨.ret false (some (fmt.Errorf "Method Delete() unimplemented.")), []⟩

/-- The method `SetPermission`. -/
def FileSystem.SetPermission (_fs : FileSystem) (_p : Path) (_fm : Nat) : Exec Bool :=
  ⟨.ret false (some (fmt.Errorf "Method SetPermission() unimplemented.")), []⟩

/-- The method `SetOwner`. -/
def FileSystem.SetOwner (_fs : FileSystem) (_p : Path) (_owner _group : String) :
    Exec Bool :=
  ⟨.ret false (some (fmt.Errorf "Method SetOwner() unimplemented.")), []⟩

/-- The method `SetReplication`. -/
def FileSystem.SetReplication (_fs : FileSystem) (_rep : Nat) : Exec Bool :=
  ⟨.ret false (some (fmt.Errorf "Method SetReplication() unimplemented.")), []⟩

/-- The method `SetTimes`. -/
def FileSystem.SetTimes (_fs : FileSystem) (_p : Path) (_accessTime _modTime : Int) :
    Exec Bool :=
  ⟨.ret false (some (fmt.Errorf "Method SetTimes() unimplemented.")), []⟩

/-- The method `MkDirs`; `fm` is an `os.FileMode`.  A nil request panics at `*req`. -/
def FileSystem.MkDirs (env : Env) (fs : FileSystem) (p : Path) (fm : Nat) : Exec Bool :=
  let params : Params := [("op", OP_MKDIRS)]
  let params :=
    if fm ≤ 0 ∨ fm > 1777 then params.set "permission" "0700"
    else params.set "permission" (strconv.FormatInt (int64 fm) 8)
  match env.buildRequestUrl fs.Config p params with
  | .error err => ⟨.ret false (some err), [.buildRequestUrl fs.Config p params]⟩
  | .ok u =>
    match (http.NewRequest env.urlParse "PUT" u.String none).1 with
    | none =>
      ⟨.panic "invalid memory address or nil pointer dereference",
        [.buildRequestUrl fs.Config p params]⟩
    | some req =>
      match env.requestHdfsData fs.client req with
      | .error err =>
        ⟨.ret false (some err),
          [.buildRequestUrl fs.Config p params, .requestHdfsData fs.client req]⟩
      | .ok hdfsData =>
        ⟨.ret hdfsData.Boolean none,
          [.buildRequestUrl fs.Config p params, .requestHdfsData fs.client req]⟩

/-- The method `CreateSymlink`.  A nil request makes `client.Do` panic on its first read
of the request, before anything is sent.  The statement `defer rsp.Body.Close()`
evaluates `rsp.Body` on the spot, before `err` is looked at, so a nil `rsp` panics
there; with a non-nil `rsp` the deferred `Close` runs when the method returns. -/
def FileSystem.CreateSymlink (env : Env) (fs : FileSystem) (dest link : Path)
    (createParent : Bool) : Exec Bool :=
  let params : Params := [("op", OP_CREATESYMLINK)]
  if dest.Name = "" ∨ link.Name = "" then
    ⟨.ret false (some (fmt.Errorf
      "CreateSymlink - param dest and link cannot be empty.")), []⟩
  else
    let params := params.set "destination" dest.Name
    let params := params.set "createParent" (strconv.FormatBool createParent)
    match env.buildRequestUrl fs.Config link params with
    | .error err => ⟨.ret false (some err), [.buildRequestUrl fs.Config link params]⟩
    | .ok u =>
      match (http.NewRequest env.urlParse "PUT" u.String none).1 with
      | none =>
        ⟨.panic "invalid memory address or nil pointer dereference",
          [.buildRequestUrl fs.Config link params]⟩
      | some req =>
        match env.clientDo fs.client req with
        | (none, _) =>
          ⟨.panic "invalid memory address or nil pointer dereference",
            [.buildRequestUrl fs.Config link params, .clientDo fs.client req]⟩
        | (some rsp, some err) =>
          ⟨.ret false (some err),
            [.buildRequestUrl fs.Config link params, .clientDo fs.client req,
              .bodyClose rsp]⟩
        | (some rsp, none) =>
          ⟨.ret true none,
            [.buildRequestUrl fs.Config link params, .clientDo fs.client req,
              .bodyClose rsp]⟩

/-- The method `GetFileStatus`.  A nil request panics at `*req`. -/
def FileSystem.GetFileStatus (env : Env) (fs : FileSystem) (p : Path) : Exec FileStatus :=
  let params : Params := [("op", OP_GETFILESTATUS)]
  match env.buildRequestUrl fs.Config p params with
  | .error err => ⟨.ret {} (some err), [.buildRequestUrl fs.Config p params]⟩
  | .ok u =>
    match (http.NewRequest env.urlParse "GET" u.String none).1 with
    | none =>
      ⟨.panic "invalid memory address or nil pointer dereference",
        [.buildRequestUrl fs.Config p params]⟩
    | some req =>
      match env.requestHdfsData fs.client req with
      | .error err =>
        ⟨.ret {} (some err),
          [.buildRequestUrl fs.Config p params, .requestHdfsData fs.client req]⟩
      | .ok hdfsData =>
        ⟨.ret hdfsData.FileStatus none,
          [.buildRequestUrl fs.Config p params, .requestHdfsData fs.client req]⟩

/-- The method `ListStatus`.  A nil request panics at `*req`. -/
def FileSystem.ListStatus (env : Env) (fs : FileSystem) (p : Path) :
    Exec (Slice FileStatus) :=
  let params : Params := [("op", OP_LISTSTATUS)]
  match env.buildRequestUrl fs.Config p params with
  | .error err => ⟨.ret none (some err), [.buildRequestUrl fs.Config p params]⟩
  | .ok u =>
    match (http.NewRequest env.urlParse "GET" u.String none).1 with
    | none =>
      ⟨.panic "invalid memory address or nil pointer dereference",
        [.buildRequestUrl fs.Config p params]⟩
    | some req =>
      match env.requestHdfsData fs.client req with
      | .error err =>
        ⟨.ret none (some err),
          [.buildRequestUrl fs.Config p params, .requestHdfsData fs.client req]⟩
      | .ok hdfsData =>
        ⟨.ret hdfsData.FileStatuses.FileStatus none,
          [.buildRequestUrl fs.Config p params, .requestHdfsData fs.client req]⟩

/-- The method `GetContentSummary`.  A nil request panics at `*req`. -/
def FileSystem.GetContentSummary (env : Env) (fs : FileSystem) (p : Path) :
    Exec ContentSummary :=
  let params : Params := [("op", OP_GETCONTENTSUMMARY)]
  match env.buildRequestUrl fs.Config p params with
  | .error err => ⟨.ret {} (some err), [.buildRequestUrl fs.Config p params]⟩
  | .ok u =>
    match (http.NewRequest env.urlParse "GET" u.String none).1 with
    | none =>
      ⟨.panic "invalid memory address or nil pointer dereference",
        [.buildRequestUrl fs.Config p params]⟩
    | some req =>
      match env.requestHdfsData fs.client req with
      | .error err =>
        ⟨.ret {} (some err),
          [.buildRequestUrl fs.Config p params, .requestHdfsData fs.client req]⟩
      | .ok hdfsData =>
        ⟨.ret hdfsData.ContentSummary none,
          [.buildRequestUrl fs.Config p params, .requestHdfsData fs.client req]⟩

/-- The method `GetHomeDirectory`. -/
def FileSystem.GetHomeDirectory (_fs : FileSystem) : Exec Path :=
  ⟨.ret {} (some (fmt.Errorf "Method GetHomeDirectory(), not implemented yet.")), []⟩

/-- The method `GetFileChecksum`.  A nil request panics at `*req`. -/
def FileSystem.GetFileChecksum (env : Env) (fs : FileSystem) (p : Path) :
    Exec FileChecksum :=
  let params : Params := [("op", OP_GETFILECHECKSUM)]
  match env.buildRequestUrl fs.Config p params with
  | .error err => ⟨.ret {} (some err), [.buildRequestUrl fs.Config p params]⟩
  | .ok u =>
    match (http.NewRequest env.urlParse "GET" u.String none).1 with
    | none =>
      ⟨.panic "invalid memory address or nil pointer dereference",
        [.buildRequestUrl fs.Config p params]⟩
    | some req =>
      match env.requestHdfsData fs.client req with
      | .error err =>
        ⟨.ret {} (some err),
          [.buildRequestUrl fs.Config p params, .requestHdfsData fs.client req]⟩
      | .ok hdfsData =>
        ⟨.ret hdfsData.FileChecksum none,
          [.buildRequestUrl fs.Config p params, .requestHdfsData fs.client req]⟩

/-! ## Reading the permission parameter -/

/-- The `permission` entry of the map handed to the first call of `buildRequestUrl`. -/
def sentPermission (trace : List Event) : Option String :=
  match urlBuilds trace with
  | [] => none
  | (_, _, params) :: _ => params.get "permission"

/-- The value of one octal digit; `none` for any other character. -/
def octalDigit? (c : Char) : Option Nat :=
  if '0' ≤ c ∧ c ≤ '7' then some (c.toNat - '0'.toNat) else none

/-- One step of reading a numeral: shift the value read so far and add the next digit. -/
def octalStep (acc : Option Nat) (c : Char) : Option Nat :=
  match acc, octalDigit? c with
  | some a, some d => some (a * 8 + d)
  | _, _ => none

/-- The number an octal numeral denotes; `none` when the string is empty or holds a
character that is not an octal digit. -/
def octalValue? (s : String) : Option Nat :=
  match s.data with
  | [] => none
  | cs => cs.foldl octalStep (some 0)

/-! ## Sample environments and inputs -/

/-- A client over the name node `namenode:50070`, acting as user `hdfs`. -/
def sampleFs : FileSystem :=
  { Config := { Addr := "namenode:50070", User := "hdfs" }, client := { Timeout := 30 } }

/-- The URL the sample environments build for every call. -/
def sampleUrl : URL := ⟨"http://namenode:50070/webhdfs/v1/data?user.name=hdfs"⟩

/-- The envelope of a server that answers `false` and lists one entry. -/
def sampleData : HdfsJsonData :=
  { Boolean := false,
    FileStatus := { FileType := "FILE", Length := 42, Owner := "hdfs" },
    FileStatuses := { FileStatus := some [{ FileType := "DIRECTORY", Owner := "hdfs" }] },
    ContentSummary := { DirectoryCount := 2, FileCount := 5, Length := 4096 },
    FileChecksum := { Algorithm := "MD5-of-1MD5-of-512CRC32", Length := 28, Bytes := "00ff" } }

/-- Every URL is built and every exchange succeeds with `sampleData`. -/
def envOk : Env :=
  { urlParse := fun _ => none,
    buildRequestUrl := fun _ _ _ => .ok sampleUrl,
    requestHdfsData := fun _ _ => .ok sampleData,
    clientDo := fun _ _ => (some ⟨200, ""⟩, none) }

/-- URL construction fails. -/
def envBadUrl : Env :=
  { urlParse := fun _ => none,
    buildRequestUrl := fun _ _ _ => .error ⟨"invalid name node address"⟩,
    requestHdfsData := fun _ _ => .ok sampleData,
    clientDo := fun _ _ => (some ⟨200, ""⟩, none) }

/-- The URL is built, and the exchange fails at the transport level: no response, only an
error. -/
def envTransportFailure : Env :=
  { urlParse := fun _ => none,
    buildRequestUrl := fun _ _ _ => .ok sampleUrl,
    requestHdfsData := fun _ _ => .error ⟨"dial tcp: connection refused"⟩,
    clientDo := fun _ _ => (none, some ⟨"dial tcp: connection refused"⟩) }

/-- The URL is built, the exchange completes, and the server answers with an error
response: status 403 and a `RemoteException` body. -/
def envServerError : Env :=
  { urlParse := fun _ => none,
    buildRequestUrl := fun _ _ _ => .ok sampleUrl,
    requestHdfsData := fun _ _ => .error ⟨"RemoteException: AccessControlException"⟩,
    clientDo := fun _ _ =>
      (some ⟨403, "\x7b\"RemoteException\":\x7b\"exception\":\"AccessControlException\"\x7d\x7d"⟩,
        none) }

/-- A URL whose text does not parse: the port is not a number. -/
def unparsableUrl : URL := ⟨"http://namenode:port/webhdfs/v1/data?user.name=hdfs"⟩

/-- The URL built is `unparsableUrl`, and the parser rejects its text. -/
def envUnparsableUrl : Env :=
  { urlParse := fun url =>
      if url = "http://namenode:port/webhdfs/v1/data?user.name=hdfs" then
        some ⟨"parse: invalid port \":port\" after host"⟩
      else none,
    buildRequestUrl := fun _ _ _ => .ok unparsableUrl,
    requestHdfsData := fun _ _ => .ok sampleData,
    clientDo := fun _ _ => (some ⟨200, ""⟩, none) }

/-! ## Building the request -/

/-- A request that `http.NewRequest` yields is the one asked for, and its text parsed. -/
theorem NewRequest_built (parse : String → Option GoError) (method url : String)
    (body : Option String) (req : Request)
    (h : (http.NewRequest parse method url body).1 = some req) :
    parse url = none ∧ req = ⟨method, url, body⟩ := by
  unfold http.NewRequest at h
  split at h
  · rename_i hp
    simp at h
    exact ⟨hp, h.symm⟩
  · simp at h

/-- A text that parses gives the request asked for. -/
theorem NewRequest_of_parses (parse : String → Option GoError) (method url : String)
    (body : Option String) (h : parse url = none) :
    (http.NewRequest parse method url body).1 = some ⟨method, url, body⟩ := by
  simp [http.NewRequest, h]

/-! ## Unimplemented methods -/

/-- C1: each of Delete, SetPermission, SetOwner, SetReplication, SetTimes and
GetHomeDirectory returns, for every receiver and every argument, the zero result (false,
or the empty Path) together with its "unimplemented" error, and makes no call at all: no
URL is built and no HTTP request is submitted. -/
theorem C1_unimplemented_methods_fail_without_calls (fs : FileSystem) (p : Path)
    (recursive : Bool) (fm : Nat) (owner group : String) (rep : Nat)
    (accessTime modTime : Int) :
    fs.Delete p recursive
        = ⟨.ret false (some ⟨"Method Delete() unimplemented."⟩), []⟩
    ∧ fs.SetPermission p fm
        = ⟨.ret false (some ⟨"Method SetPermission() unimplemented."⟩), []⟩
    ∧ fs.SetOwner p owner group
        = ⟨.ret false (some ⟨"Method SetOwner() unimplemented."⟩), []⟩
    ∧ fs.SetReplication rep
        = ⟨.ret false (some ⟨"Method SetReplication() unimplemented."⟩), []⟩
    ∧ fs.SetTimes p accessTime modTime
        = ⟨.ret false (some ⟨"Method SetTimes() unimplemented."⟩), []⟩
    ∧ fs.GetHomeDirectory
        = ⟨.ret { Name := "" } (some ⟨"Method GetHomeDirectory(), not implemented yet."⟩), []⟩
    ∧ urlBuilds (fs.Delete p recursive).trace = []
    ∧ requests (fs.Delete p recursive).trace = []
    ∧ urlBuilds (fs.SetPermission p fm).trace = []
    ∧ requests (fs.SetPermission p fm).trace = []
    ∧ urlBuilds (fs.SetOwner p owner group).trace = []
    ∧ requests (fs.SetOwner p owner group).trace = []
    ∧ urlBuilds (fs.SetReplication rep).trace = []
    ∧ requests (fs.SetReplication rep).trace = []
    ∧ urlBuilds (fs.SetTimes p accessTime modTime).trace = []
    ∧ requests (fs.SetTimes p accessTime modTime).trace = []
    ∧ urlBuilds fs.GetHomeDirectory.trace = []
    ∧ requests fs.GetHomeDirectory.trace = [] := by
  refine ⟨rfl, rfl, rfl, rfl, rfl, rfl, rfl, rfl, rfl, rfl, rfl, rfl, rfl, rfl, rfl, rfl,
    rfl, rfl⟩

/-! ## Parameter validation -/

/-- C2: with an empty source or destination name, Rename and CreateSymlink return false
with their validation error and make no call (no URL is built, no request is submitted).
With both names non-empty the validation branch is not taken: the first thing the
operation does is call buildRequestUrl, an error it returns, if any, is the one
buildRequestUrl, requestHdfsData or the HTTP client produced, and the run is not the
validation failure. -/
theorem C2_empty_names_rejected_before_any_call (env : Env) (fs : FileSystem)
    (a b : Path) (createParent : Bool) :
    ((a.Name = "" ∨ b.Name = "") →
      fs.Rename env a b
          = ⟨.ret false
              (some ⟨"Rename() - params source and destination cannot be empty."⟩), []⟩
      ∧ fs.CreateSymlink env a b createParent
          = ⟨.ret false
              (some ⟨"CreateSymlink - param dest and link cannot be empty."⟩), []⟩)
    ∧ ((a.Name ≠ "" ∧ b.Name ≠ "") →
      (∃ params, (fs.Rename env a b).trace.head?
          = some (.buildRequestUrl fs.Config a params)
        ∧ ∀ v e, (fs.Rename env a b).outcome = .ret v (some e) →
            env.buildRequestUrl fs.Config a params = .error e
            ∨ ∃ u, env.requestHdfsData fs.client ⟨"PUT", u, none⟩
                = .error e)
      ∧ (∃ params, (fs.CreateSymlink env a b createParent).trace.head?
          = some (.buildRequestUrl fs.Config b params)
        ∧ ∀ v e, (fs.CreateSymlink env a b createParent).outcome = .ret v (some e) →
            env.buildRequestUrl fs.Config b params = .error e
            ∨ ∃ u rsp, env.clientDo fs.client ⟨"PUT", u, none⟩
                = (some rsp, some e))
      ∧ fs.Rename env a b
          ≠ ⟨.ret false
              (some ⟨"Rename() - params source and destination cannot be empty."⟩), []⟩
      ∧ fs.CreateSymlink env a b createParent
          ≠ ⟨.ret false
              (some ⟨"CreateSymlink - param dest and link cannot be empty."⟩), []⟩) := by
  constructor
  · intro h
    simp [FileSystem.Rename, FileSystem.CreateSymlink, h, fmt.Errorf]
  · rintro ⟨ha, hb⟩
    refine ⟨?_, ?_, ?_, ?_⟩
    · refine ⟨Params.set [("op", OP_RENAME)] "destination" b.Name, ?_, ?_⟩
      · simp only [FileSystem.Rename, ha, hb, or_self, if_false]
        repeat' split
        all_goals rfl
      · intro v e
        simp only [FileSystem.Rename, ha, hb, or_self, if_false]
        split
        · rename_i err herr
          intro h
          simp at h
          left; rw [herr, h.2]
        · rename_i u hu
          split
          · intro h; simp at h
          · rename_i req hreq
            obtain ⟨_, rfl⟩ := NewRequest_built _ _ _ _ _ hreq
            split
            · rename_i err herr
              intro h
              simp at h
              right; exact ⟨u.String, by rw [herr, h.2]⟩
            · intro h; simp at h
    · refine ⟨Params.set (Params.set [("op", OP_CREATESYMLINK)] "destination" a.Name)
        "createParent" (strconv.FormatBool createParent), ?_, ?_⟩
      · simp only [FileSystem.CreateSymlink, ha, hb, or_self, if_false]
        repeat' split
        all_goals rfl
      · intro v e
        simp only [FileSystem.CreateSymlink, ha, hb, or_self, if_false]
        split
        · rename_i err herr
          intro h
          simp at h
          left; rw [herr, h.2]
        · rename_i u hu
          split
          · intro h; simp at h
          · rename_i req hreq
            obtain ⟨_, rfl⟩ := NewRequest_built _ _ _ _ _ hreq
            split
            · intro h; simp at h
            · rename_i rsp err herr
              intro h
              simp at h
              right; exact ⟨u.String, rsp, by rw [herr, h.2]⟩
            · intro h; simp at h
    · intro h
      have ht := congrArg Exec.trace h
      simp only [FileSystem.Rename, ha, hb, or_self, if_false] at ht
      repeat' split at ht
      all_goals simp at ht
    · intro h
      have ht := congrArg Exec.trace h
      simp only [FileSystem.CreateSymlink, ha, hb, or_self, if_false] at ht
      repeat' split at ht
      all_goals simp at ht

/-- C2 at concrete inputs: an empty source name is rejected with no call made, and the
names `/data/old` and `/data/new` get past validation. -/
theorem C2_empty_names_rejected_before_any_call_witness :
    (((⟨""⟩ : Path).Name = "" ∨ (⟨"/data/new"⟩ : Path).Name = "")
      ∧ sampleFs.Rename envOk ⟨""⟩ ⟨"/data/new"⟩
          = ⟨.ret false
              (some ⟨"Rename() - params source and destination cannot be empty."⟩), []⟩
      ∧ sampleFs.CreateSymlink envOk ⟨""⟩ ⟨"/data/new"⟩ true
          = ⟨.ret false
              (some ⟨"CreateSymlink - param dest and link cannot be empty."⟩), []⟩)
    ∧ (((⟨"/data/old"⟩ : Path).Name ≠ "" ∧ (⟨"/data/new"⟩ : Path).Name ≠ "")
      ∧ (∃ params, (sampleFs.Rename envBadUrl ⟨"/data/old"⟩ ⟨"/data/new"⟩).trace.head?
          = some (.buildRequestUrl sampleFs.Config ⟨"/data/old"⟩ params)
        ∧ ∀ v e, (sampleFs.Rename envBadUrl ⟨"/data/old"⟩ ⟨"/data/new"⟩).outcome
              = .ret v (some e) →
            envBadUrl.buildRequestUrl sampleFs.Config ⟨"/data/old"⟩ params = .error e
            ∨ ∃ u, envBadUrl.requestHdfsData sampleFs.client ⟨"PUT", u, none⟩
                = .error e)
      ∧ (∃ params,
          (sampleFs.CreateSymlink envBadUrl ⟨"/data/old"⟩ ⟨"/data/new"⟩ true).trace.head?
          = some (.buildRequestUrl sampleFs.Config ⟨"/data/new"⟩ params)
        ∧ ∀ v e, (sampleFs.CreateSymlink envBadUrl ⟨"/data/old"⟩ ⟨"/data/new"⟩ true).outcome
              = .ret v (some e) →
            envBadUrl.buildRequestUrl sampleFs.Config ⟨"/data/new"⟩ params = .error e
            ∨ ∃ u rsp, envBadUrl.clientDo sampleFs.client ⟨"PUT", u, none⟩
                = (some rsp, some e))
      ∧ sampleFs.Rename envBadUrl ⟨"/data/old"⟩ ⟨"/data/new"⟩
          ≠ ⟨.ret false
              (some ⟨"Rename() - params source and destination cannot be empty."⟩), []⟩
      ∧ sampleFs.CreateSymlink envBadUrl ⟨"/data/old"⟩ ⟨"/data/new"⟩ true
          ≠ ⟨.ret false
              (some ⟨"CreateSymlink - param dest and link cannot be empty."⟩), []⟩) :=
  ⟨⟨Or.inl rfl,
      (C2_empty_names_rejected_before_any_call envOk sampleFs ⟨""⟩ ⟨"/data/new"⟩ true).1
        (Or.inl rfl)⟩,
    ⟨⟨by decide, by decide⟩,
      (C2_empty_names_rejected_before_any_call envBadUrl sampleFs ⟨"/data/old"⟩
        ⟨"/data/new"⟩ true).2 ⟨by decide, by decide⟩⟩⟩

/-! ## CreateSymlink and the HTTP response -/

/-- C3 (the code at a failing input): the names `/data/file` and `/data/link` are
non-empty, the URL is built, and `client.Do` reports a transport failure (no response, a
non-nil error).  CreateSymlink submits its PUT request and then panics on the nil
response: it does not return false with the transport error. -/
theorem C3_CreateSymlink_panics_on_transport_failure :
    envTransportFailure.clientDo sampleFs.client
        ⟨"PUT", sampleUrl.String, none⟩
      = (none, some ⟨"dial tcp: connection refused"⟩)
    ∧ sampleFs.CreateSymlink envTransportFailure ⟨"/data/file"⟩ ⟨"/data/link"⟩ false
      = ⟨.panic "invalid memory address or nil pointer dereference",
          [.buildRequestUrl sampleFs.Config ⟨"/data/link"⟩
              [("op", "CREATESYMLINK"), ("destination", "/data/file"),
                ("createParent", "false")],
            .clientDo sampleFs.client ⟨"PUT", sampleUrl.String, none⟩]⟩
    ∧ (sampleFs.CreateSymlink envTransportFailure ⟨"/data/file"⟩ ⟨"/data/link"⟩ false).outcome
      ≠ .ret false (some ⟨"dial tcp: connection refused"⟩) := by
  decide

/-- C4 (the code at a failing input): the names are non-empty, the URL is built, the
exchange completes and the server answers with status 403 and a `RemoteException` body.
CreateSymlink never reads the response: it returns true with a nil error. -/
theorem C4_CreateSymlink_ignores_server_error :
    envServerError.clientDo sampleFs.client
        ⟨"PUT", sampleUrl.String, none⟩
      = (some ⟨403,
          "\x7b\"RemoteException\":\x7b\"exception\":\"AccessControlException\"\x7d\x7d"⟩,
          none)
    ∧ (sampleFs.CreateSymlink envServerError ⟨"/data/file"⟩ ⟨"/data/link"⟩ true).outcome
      = .ret true none := by
  decide

/-! ## The request each operation submits -/

/-- C5 (as stated, at a concrete input): the names are non-empty and buildRequestUrl
returns `unparsableUrl`, whose text `http.NewRequest` rejects.  Rename and GetFileStatus
then panic on the nil request: the URL was built, and no HTTP request is submitted. -/
theorem C5_no_request_when_url_text_does_not_parse :
    ((⟨"/data/old"⟩ : Path).Name ≠ "" ∧ (⟨"/data/new"⟩ : Path).Name ≠ "")
    ∧ envUnparsableUrl.buildRequestUrl sampleFs.Config ⟨"/data/old"⟩
        [("op", OP_RENAME), ("destination", "/data/new")] = .ok unparsableUrl
    ∧ sampleFs.Rename envUnparsableUrl ⟨"/data/old"⟩ ⟨"/data/new"⟩
      = ⟨.panic "invalid memory address or nil pointer dereference",
          [.buildRequestUrl sampleFs.Config ⟨"/data/old"⟩
            [("op", "RENAME"), ("destination", "/data/new")]]⟩
    ∧ requests (sampleFs.Rename envUnparsableUrl ⟨"/data/old"⟩ ⟨"/data/new"⟩).trace = []
    ∧ requests (sampleFs.Rename envUnparsableUrl ⟨"/data/old"⟩ ⟨"/data/new"⟩).trace
      ≠ [⟨"PUT", unparsableUrl.String, none⟩]
    ∧ envUnparsableUrl.buildRequestUrl sampleFs.Config ⟨"/data/dir"⟩
        [("op", OP_GETFILESTATUS)] = .ok unparsableUrl
    ∧ requests (sampleFs.GetFileStatus envUnparsableUrl ⟨"/data/dir"⟩).trace = []
    ∧ requests (sampleFs.GetFileStatus envUnparsableUrl ⟨"/data/dir"⟩).trace
      ≠ [⟨"GET", unparsableUrl.String, none⟩] :=
  ⟨by decide, rfl, by decide, by decide, by decide, rfl, by decide, by decide⟩

/-- C5 (amended): once its names are accepted, buildRequestUrl has returned the URL `u`
and the text of `u` parses, so that `http.NewRequest` builds the request, each
implemented operation submits exactly one HTTP request, whatever the exchange then
yields: a PUT for Rename, MkDirs and CreateSymlink, a GET for GetFileStatus, ListStatus,
GetContentSummary and GetFileChecksum; the request has no body and its target is the
text of `u`. -/
theorem C5_one_request_with_fixed_verb (env : Env) (fs : FileSystem)
    (source destination dest link p : Path) (fm : Nat) (createParent : Bool) (u : URL)
    (hparse : env.urlParse u.String = none) :
    (source.Name ≠ "" → destination.Name ≠ "" →
      env.buildRequestUrl fs.Config source
          [("op", OP_RENAME), ("destination", destination.Name)] = .ok u →
      requests (fs.Rename env source destination).trace = [⟨"PUT", u.String, none⟩])
    ∧ (env.buildRequestUrl fs.Config p
          [("op", OP_MKDIRS),
            ("permission", if fm ≤ 0 ∨ fm > 1777 then "0700"
              else strconv.FormatInt (int64 fm) 8)] = .ok u →
      requests (fs.MkDirs env p fm).trace = [⟨"PUT", u.String, none⟩])
    ∧ (dest.Name ≠ "" → link.Name ≠ "" →
      env.buildRequestUrl fs.Config link
          [("op", OP_CREATESYMLINK), ("destination", dest.Name),
            ("createParent", strconv.FormatBool createParent)] = .ok u →
      requests (fs.CreateSymlink env dest link createParent).trace
        = [⟨"PUT", u.String, none⟩])
    ∧ (env.buildRequestUrl fs.Config p [("op", OP_GETFILESTATUS)] = .ok u →
      requests (fs.GetFileStatus env p).trace = [⟨"GET", u.String, none⟩])
    ∧ (env.buildRequestUrl fs.Config p [("op", OP_LISTSTATUS)] = .ok u →
      requests (fs.ListStatus env p).trace = [⟨"GET", u.String, none⟩])
    ∧ (env.buildRequestUrl fs.Config p [("op", OP_GETCONTENTSUMMARY)] = .ok u →
      requests (fs.GetContentSummary env p).trace = [⟨"GET", u.String, none⟩])
    ∧ (env.buildRequestUrl fs.Config p [("op", OP_GETFILECHECKSUM)] = .ok u →
      requests (fs.GetFileChecksum env p).trace = [⟨"GET", u.String, none⟩]) := by
  have hput := NewRequest_of_parses env.urlParse "PUT" u.String none hparse
  have hget := NewRequest_of_parses env.urlParse "GET" u.String none hparse
  refine ⟨?_, ?_, ?_, ?_, ?_, ?_, ?_⟩
  · intro hs hd hb
    simp [FileSystem.Rename, hs, hd, Params.set, hb, hput]
    split <;> simp [requests]
  · intro hb
    by_cases hfm : fm ≤ 0 ∨ fm > 1777
    · simp only [hfm, if_true] at hb
      simp only [FileSystem.MkDirs, hfm, if_true, Params.set]
      simp [hb, hput]
      split <;> simp [requests]
    · simp only [hfm, if_false] at hb
      simp only [FileSystem.MkDirs, hfm, if_false, Params.set]
      simp [hb, hput]
      split <;> simp [requests]
  · intro hs hd hb
    simp [FileSystem.CreateSymlink, hs, hd, Params.set, hb, hput]
    split <;> simp [requests]
  · intro hb
    simp [FileSystem.GetFileStatus, hb, hget]
    split <;> simp [requests]
  · intro hb
    simp [FileSystem.ListStatus, hb, hget]
    split <;> simp [requests]
  · intro hb
    simp [FileSystem.GetContentSummary, hb, hget]
    split <;> simp [requests]
  · intro hb
    simp [FileSystem.GetFileChecksum, hb, hget]
    split <;> simp [requests]

/-- C5 (amended) at concrete inputs: against an environment that builds `sampleUrl`,
whose text parses, each operation submits one request with its verb, no body and the
text of `sampleUrl`. -/
theorem C5_one_request_with_fixed_verb_witness :
    envOk.urlParse sampleUrl.String = none
    ∧ requests (sampleFs.Rename envOk ⟨"/data/old"⟩ ⟨"/data/new"⟩).trace
        = [⟨"PUT", "http://namenode:50070/webhdfs/v1/data?user.name=hdfs", none⟩]
    ∧ requests (sampleFs.MkDirs envOk ⟨"/data/dir"⟩ 493).trace
        = [⟨"PUT", "http://namenode:50070/webhdfs/v1/data?user.name=hdfs", none⟩]
    ∧ requests (sampleFs.CreateSymlink envTransportFailure ⟨"/data/file"⟩
          ⟨"/data/link"⟩ true).trace
        = [⟨"PUT", "http://namenode:50070/webhdfs/v1/data?user.name=hdfs", none⟩]
    ∧ requests (sampleFs.GetFileStatus envOk ⟨"/data/dir"⟩).trace
        = [⟨"GET", "http://namenode:50070/webhdfs/v1/data?user.name=hdfs", none⟩]
    ∧ requests (sampleFs.ListStatus envOk ⟨"/data/dir"⟩).trace
        = [⟨"GET", "http://namenode:50070/webhdfs/v1/data?user.name=hdfs", none⟩]
    ∧ requests (sampleFs.GetContentSummary envOk ⟨"/data/dir"⟩).trace
        = [⟨"GET", "http://namenode:50070/webhdfs/v1/data?user.name=hdfs", none⟩]
    ∧ requests (sampleFs.GetFileChecksum envOk ⟨"/data/dir"⟩).trace
        = [⟨"GET", "http://namenode:50070/webhdfs/v1/data?user.name=hdfs", none⟩] :=
  have h := C5_one_request_with_fixed_verb envOk sampleFs ⟨"/data/old"⟩ ⟨"/data/new"⟩
    ⟨"/data/file"⟩ ⟨"/data/link"⟩ ⟨"/data/dir"⟩ 493 true sampleUrl rfl
  have ht := C5_one_request_with_fixed_verb envTransportFailure sampleFs ⟨"/data/old"⟩
    ⟨"/data/new"⟩ ⟨"/data/file"⟩ ⟨"/data/link"⟩ ⟨"/data/dir"⟩ 493 true sampleUrl rfl
  ⟨rfl, h.1 (by decide) (by decide) rfl, h.2.1 rfl,
    ht.2.2.1 (by decide) (by decide) rfl, h.2.2.2.1 rfl, h.2.2.2.2.1 rfl,
    h.2.2.2.2.2.1 rfl, h.2.2.2.2.2.2 rfl⟩

/-! ## What is handed to buildRequestUrl -/

/-- C6: every call that gets past validation calls buildRequestUrl exactly once, with
the configuration of the receiver unchanged and with this path and this map.  Rename:
the source path, op = OP_RENAME and destination = the destination name.  MkDirs: the
path, and a map whose keys are exactly op (= OP_MKDIRS) and permission.  CreateSymlink:
the link path, op = OP_CREATESYMLINK, destination = the name of dest and createParent =
"true" or "false".  GetFileStatus, ListStatus, GetContentSummary and GetFileChecksum:
the path and a map holding only op, with the name of the operation. -/
theorem C6_arguments_of_buildRequestUrl (env : Env) (fs : FileSystem)
    (source destination dest link p : Path) (fm : Nat) (createParent : Bool) :
    (source.Name ≠ "" → destination.Name ≠ "" →
      urlBuilds (fs.Rename env source destination).trace
        = [(fs.Config, source, [("op", OP_RENAME), ("destination", destination.Name)])])
    ∧ (∃ permission, urlBuilds (fs.MkDirs env p fm).trace
        = [(fs.Config, p, [("op", OP_MKDIRS), ("permission", permission)])])
    ∧ (dest.Name ≠ "" → link.Name ≠ "" →
      urlBuilds (fs.CreateSymlink env dest link createParent).trace
        = [(fs.Config, link,
            [("op", OP_CREATESYMLINK), ("destination", dest.Name),
              ("createParent", if createParent = true then "true" else "false")])])
    ∧ urlBuilds (fs.GetFileStatus env p).trace
        = [(fs.Config, p, [("op", OP_GETFILESTATUS)])]
    ∧ urlBuilds (fs.ListStatus env p).trace
        = [(fs.Config, p, [("op", OP_LISTSTATUS)])]
    ∧ urlBuilds (fs.GetContentSummary env p).trace
        = [(fs.Config, p, [("op", OP_GETCONTENTSUMMARY)])]
    ∧ urlBuilds (fs.GetFileChecksum env p).trace
        = [(fs.Config, p, [("op", OP_GETFILECHECKSUM)])] := by
  refine ⟨?_, ?_, ?_, ?_, ?_, ?_, ?_⟩
  · intro hs hd
    simp [FileSystem.Rename, hs, hd, Params.set]
    repeat' split
    all_goals simp [urlBuilds]
  · by_cases hfm : fm ≤ 0 ∨ fm > 1777
    · refine ⟨"0700", ?_⟩
      simp only [FileSystem.MkDirs, hfm, if_true, Params.set]
      simp
      repeat' split
      all_goals simp [urlBuilds]
    · refine ⟨strconv.FormatInt (int64 fm) 8, ?_⟩
      simp only [FileSystem.MkDirs, hfm, if_false, Params.set]
      simp
      repeat' split
      all_goals simp [urlBuilds]
  · intro hs hd
    simp [FileSystem.CreateSymlink, hs, hd, Params.set, strconv.FormatBool]
    repeat' split
    all_goals simp [urlBuilds]
  · simp [FileSystem.GetFileStatus]
    repeat' split
    all_goals simp [urlBuilds]
  · simp [FileSystem.ListStatus]
    repeat' split
    all_goals simp [urlBuilds]
  · simp [FileSystem.GetContentSummary]
    repeat' split
    all_goals simp [urlBuilds]
  · simp [FileSystem.GetFileChecksum]
    repeat' split
    all_goals simp [urlBuilds]

/-- C6 at concrete inputs: renaming `/data/old` to `/data/new` and linking `/data/link`
to `/data/file` hand these arguments to buildRequestUrl. -/
theorem C6_arguments_of_buildRequestUrl_witness :
    urlBuilds (sampleFs.Rename envOk ⟨"/data/old"⟩ ⟨"/data/new"⟩).trace
        = [(sampleFs.Config, ⟨"/data/old"⟩,
            [("op", "RENAME"), ("destination", "/data/new")])]
    ∧ urlBuilds (sampleFs.CreateSymlink envOk ⟨"/data/file"⟩ ⟨"/data/link"⟩ true).trace
        = [(sampleFs.Config, ⟨"/data/link"⟩,
            [("op", "CREATESYMLINK"), ("destination", "/data/file"),
              ("createParent", "true")])] :=
  ⟨(C6_arguments_of_buildRequestUrl envOk sampleFs ⟨"/data/old"⟩ ⟨"/data/new"⟩
      ⟨"/data/file"⟩ ⟨"/data/link"⟩ ⟨"/data/dir"⟩ 493 true).1 (by decide) (by decide),
    (C6_arguments_of_buildRequestUrl envOk sampleFs ⟨"/data/old"⟩ ⟨"/data/new"⟩
      ⟨"/data/file"⟩ ⟨"/data/link"⟩ ⟨"/data/dir"⟩ 493 true).2.2.1 (by decide) (by decide)⟩

/-! ## Failure and success of the exchange -/

/-- C7: for Rename (with non-empty names), MkDirs, GetFileStatus, ListStatus,
GetContentSummary and GetFileChecksum: when buildRequestUrl fails with `e`, the
operation returns the zero value with `e` and submits no request; when buildRequestUrl
yields `u`, `http.NewRequest` builds the request for the text of `u` and requestHdfsData
fails with `e` on that request, the operation returns the zero value with `e`.  The zero value is false, the empty
FileStatus, the nil slice, the empty ContentSummary or the empty FileChecksum.  No run
submits more than one request. -/
theorem C7_failures_propagate_unchanged (env : Env) (fs : FileSystem)
    (source destination p : Path) (fm : Nat) (u : URL) (putReq getReq : Request)
    (e : GoError) :
    (source.Name ≠ "" → destination.Name ≠ "" →
      (env.buildRequestUrl fs.Config source
          [("op", OP_RENAME), ("destination", destination.Name)] = .error e →
        (fs.Rename env source destination).outcome = .ret false (some e)
        ∧ requests (fs.Rename env source destination).trace = [])
      ∧ (env.buildRequestUrl fs.Config source
          [("op", OP_RENAME), ("destination", destination.Name)] = .ok u →
        (http.NewRequest env.urlParse "PUT" u.String none).1 = some putReq →
        env.requestHdfsData fs.client putReq = .error e →
        (fs.Rename env source destination).outcome = .ret false (some e)))
    ∧ ((env.buildRequestUrl fs.Config p
          [("op", OP_MKDIRS),
            ("permission", if fm ≤ 0 ∨ fm > 1777 then "0700"
              else strconv.FormatInt (int64 fm) 8)] = .error e →
        (fs.MkDirs env p fm).outcome = .ret false (some e)
        ∧ requests (fs.MkDirs env p fm).trace = [])
      ∧ (env.buildRequestUrl fs.Config p
          [("op", OP_MKDIRS),
            ("permission", if fm ≤ 0 ∨ fm > 1777 then "0700"
              else strconv.FormatInt (int64 fm) 8)] = .ok u →
        (http.NewRequest env.urlParse "PUT" u.String none).1 = some putReq →
        env.requestHdfsData fs.client putReq = .error e →
        (fs.MkDirs env p fm).outcome = .ret false (some e)))
    ∧ ((env.buildRequestUrl fs.Config p [("op", OP_GETFILESTATUS)] = .error e →
        (fs.GetFileStatus env p).outcome
          = .ret { FileType := "", Length := 0, Permission := "", AccessTime := 0,
                   ModificationTime := 0, Owner := "", Replication := 0 } (some e)
        ∧ requests (fs.GetFileStatus env p).trace = [])
      ∧ (env.buildRequestUrl fs.Config p [("op", OP_GETFILESTATUS)] = .ok u →
        (http.NewRequest env.urlParse "GET" u.String none).1 = some getReq →
        env.requestHdfsData fs.client getReq = .error e →
        (fs.GetFileStatus env p).outcome
          = .ret { FileType := "", Length := 0, Permission := "", AccessTime := 0,
                   ModificationTime := 0, Owner := "", Replication := 0 } (some e)))
    ∧ ((env.buildRequestUrl fs.Config p [("op", OP_LISTSTATUS)] = .error e →
        (fs.ListStatus env p).outcome = .ret none (some e)
        ∧ requests (fs.ListStatus env p).trace = [])
      ∧ (env.buildRequestUrl fs.Config p [("op", OP_LISTSTATUS)] = .ok u →
        (http.NewRequest env.urlParse "GET" u.String none).1 = some getReq →
        env.requestHdfsData fs.client getReq = .error e →
        (fs.ListStatus env p).outcome = .ret none (some e)))
    ∧ ((env.buildRequestUrl fs.Config p [("op", OP_GETCONTENTSUMMARY)] = .error e →
        (fs.GetContentSummary env p).outcome
          = .ret { DirectoryCount := 0, FileCount := 0, Length := 0 } (some e)
        ∧ requests (fs.GetContentSummary env p).trace = [])
      ∧ (env.buildRequestUrl fs.Config p [("op", OP_GETCONTENTSUMMARY)] = .ok u →
        (http.NewRequest env.urlParse "GET" u.String none).1 = some getReq →
        env.requestHdfsData fs.client getReq = .error e →
        (fs.GetContentSummary env p).outcome
          = .ret { DirectoryCount := 0, FileCount := 0, Length := 0 } (some e)))
    ∧ ((env.buildRequestUrl fs.Config p [("op", OP_GETFILECHECKSUM)] = .error e →
        (fs.GetFileChecksum env p).outcome
          = .ret { Algorithm := "", Length := 0, Bytes := "" } (some e)
        ∧ requests (fs.GetFileChecksum env p).trace = [])
      ∧ (env.buildRequestUrl fs.Config p [("op", OP_GETFILECHECKSUM)] = .ok u →
        (http.NewRequest env.urlParse "GET" u.String none).1 = some getReq →
        env.requestHdfsData fs.client getReq = .error e →
        (fs.GetFileChecksum env p).outcome
          = .ret { Algorithm := "", Length := 0, Bytes := "" } (some e)))
    ∧ (requests (fs.Rename env source destination).trace).length ≤ 1
    ∧ (requests (fs.MkDirs env p fm).trace).length ≤ 1
    ∧ (requests (fs.GetFileStatus env p).trace).length ≤ 1
    ∧ (requests (fs.ListStatus env p).trace).length ≤ 1
    ∧ (requests (fs.GetContentSummary env p).trace).length ≤ 1
    ∧ (requests (fs.GetFileChecksum env p).trace).length ≤ 1 := by
  refine ⟨?_, ⟨?_, ?_⟩, ⟨?_, ?_⟩, ⟨?_, ?_⟩, ⟨?_, ?_⟩, ⟨?_, ?_⟩, ?_, ?_, ?_, ?_, ?_, ?_⟩
  · intro hs hd
    constructor
    · intro hb
      simp [FileSystem.Rename, hs, hd, Params.set, hb, requests]
    · intro hb hn hr
      simp [FileSystem.Rename, hs, hd, Params.set, hb, hn, hr]
  · intro hb
    by_cases hfm : fm ≤ 0 ∨ fm > 1777
    · simp only [hfm, if_true] at hb
      simp only [FileSystem.MkDirs, hfm, if_true, Params.set]
      simp [hb, requests]
    · simp only [hfm, if_false] at hb
      simp only [FileSystem.MkDirs, hfm, if_false, Params.set]
      simp [hb, requests]
  · intro hb hn hr
    by_cases hfm : fm ≤ 0 ∨ fm > 1777
    · simp only [hfm, if_true] at hb
      simp only [FileSystem.MkDirs, hfm, if_true, Params.set]
      simp [hb, hn, hr]
    · simp only [hfm, if_false] at hb
      simp only [FileSystem.MkDirs, hfm, if_false, Params.set]
      simp [hb, hn, hr]
  · intro hb
    simp [FileSystem.GetFileStatus, hb, requests]
  · intro hb hn hr
    simp [FileSystem.GetFileStatus, hb, hn, hr]
  · intro hb
    simp [FileSystem.ListStatus, hb, requests]
  · intro hb hn hr
    simp [FileSystem.ListStatus, hb, hn, hr]
  · intro hb
    simp [FileSystem.GetContentSummary, hb, requests]
  · intro hb hn hr
    simp [FileSystem.GetContentSummary, hb, hn, hr]
  · intro hb
    simp [FileSystem.GetFileChecksum, hb, requests]
  · intro hb hn hr
    simp [FileSystem.GetFileChecksum, hb, hn, hr]
  · simp only [FileSystem.Rename]
    repeat' split
    all_goals simp [requests]
  · simp only [FileSystem.MkDirs]
    repeat' split
    all_goals simp [requests]
  · simp only [FileSystem.GetFileStatus]
    repeat' split
    all_goals simp [requests]
  · simp only [FileSystem.ListStatus]
    repeat' split
    all_goals simp [requests]
  · simp only [FileSystem.GetContentSummary]
    repeat' split
    all_goals simp [requests]
  · simp only [FileSystem.GetFileChecksum]
    repeat' split
    all_goals simp [requests]

/-- C7 at concrete inputs: against `envBadUrl` every operation returns its zero value
with the error of buildRequestUrl and submits nothing; against `envTransportFailure`
every operation returns its zero value with the error of requestHdfsData. -/
theorem C7_failures_propagate_unchanged_witness :
    ((sampleFs.Rename envBadUrl ⟨"/data/old"⟩ ⟨"/data/new"⟩).outcome
        = .ret false (some ⟨"invalid name node address"⟩)
      ∧ requests (sampleFs.Rename envBadUrl ⟨"/data/old"⟩ ⟨"/data/new"⟩).trace = [])
    ∧ ((sampleFs.MkDirs envBadUrl ⟨"/data/dir"⟩ 493).outcome
        = .ret false (some ⟨"invalid name node address"⟩)
      ∧ requests (sampleFs.MkDirs envBadUrl ⟨"/data/dir"⟩ 493).trace = [])
    ∧ ((sampleFs.GetFileStatus envBadUrl ⟨"/data/dir"⟩).outcome
        = .ret { FileType := "", Length := 0, Permission := "", AccessTime := 0,
                 ModificationTime := 0, Owner := "", Replication := 0 }
            (some ⟨"invalid name node address"⟩)
      ∧ requests (sampleFs.GetFileStatus envBadUrl ⟨"/data/dir"⟩).trace = [])
    ∧ ((sampleFs.ListStatus envBadUrl ⟨"/data/dir"⟩).outcome
        = .ret none (some ⟨"invalid name node address"⟩)
      ∧ requests (sampleFs.ListStatus envBadUrl ⟨"/data/dir"⟩).trace = [])
    ∧ ((sampleFs.GetContentSummary envBadUrl ⟨"/data/dir"⟩).outcome
        = .ret { DirectoryCount := 0, FileCount := 0, Length := 0 }
            (some ⟨"invalid name node address"⟩)
      ∧ requests (sampleFs.GetContentSummary envBadUrl ⟨"/data/dir"⟩).trace = [])
    ∧ ((sampleFs.GetFileChecksum envBadUrl ⟨"/data/dir"⟩).outcome
        = .ret { Algorithm := "", Length := 0, Bytes := "" }
            (some ⟨"invalid name node address"⟩)
      ∧ requests (sampleFs.GetFileChecksum envBadUrl ⟨"/data/dir"⟩).trace = [])
    ∧ (sampleFs.Rename envTransportFailure ⟨"/data/old"⟩ ⟨"/data/new"⟩).outcome
        = .ret false (some ⟨"dial tcp: connection refused"⟩)
    ∧ (sampleFs.MkDirs envTransportFailure ⟨"/data/dir"⟩ 493).outcome
        = .ret false (some ⟨"dial tcp: connection refused"⟩)
    ∧ (sampleFs.GetFileStatus envTransportFailure ⟨"/data/dir"⟩).outcome
        = .ret { FileType := "", Length := 0, Permission := "", AccessTime := 0,
                 ModificationTime := 0, Owner := "", Replication := 0 }
            (some ⟨"dial tcp: connection refused"⟩)
    ∧ (sampleFs.ListStatus envTransportFailure ⟨"/data/dir"⟩).outcome
        = .ret none (some ⟨"dial tcp: connection refused"⟩)
    ∧ (sampleFs.GetContentSummary envTransportFailure ⟨"/data/dir"⟩).outcome
        = .ret { DirectoryCount := 0, FileCount := 0, Length := 0 }
            (some ⟨"dial tcp: connection refused"⟩)
    ∧ (sampleFs.GetFileChecksum envTransportFailure ⟨"/data/dir"⟩).outcome
        = .ret { Algorithm := "", Length := 0, Bytes := "" }
            (some ⟨"dial tcp: connection refused"⟩) :=
  have hb := C7_failures_propagate_unchanged envBadUrl sampleFs ⟨"/data/old"⟩
    ⟨"/data/new"⟩ ⟨"/data/dir"⟩ 493 sampleUrl ⟨"PUT", sampleUrl.String, none⟩
    ⟨"GET", sampleUrl.String, none⟩ ⟨"invalid name node address"⟩
  have ht := C7_failures_propagate_unchanged envTransportFailure sampleFs ⟨"/data/old"⟩
    ⟨"/data/new"⟩ ⟨"/data/dir"⟩ 493 sampleUrl ⟨"PUT", sampleUrl.String, none⟩
    ⟨"GET", sampleUrl.String, none⟩ ⟨"dial tcp: connection refused"⟩
  ⟨(hb.1 (by decide) (by decide)).1 rfl, hb.2.1.1 rfl, hb.2.2.1.1 rfl, hb.2.2.2.1.1 rfl,
    hb.2.2.2.2.1.1 rfl, hb.2.2.2.2.2.1.1 rfl,
    (ht.1 (by decide) (by decide)).2 rfl rfl rfl, ht.2.1.2 rfl rfl rfl,
    ht.2.2.1.2 rfl rfl rfl, ht.2.2.2.1.2 rfl rfl rfl, ht.2.2.2.2.1.2 rfl rfl rfl,
    ht.2.2.2.2.2.1.2 rfl rfl rfl⟩

/-- C8: when buildRequestUrl yields `u`, `http.NewRequest` builds the request for the
text of `u` and requestHdfsData yields the envelope `d` on that request, the operation
returns the matching field of `d` with a nil error: Boolean for Rename and MkDirs, FileStatus for GetFileStatus, the slice
FileStatuses.FileStatus for ListStatus, ContentSummary for GetContentSummary and
FileChecksum for GetFileChecksum.  In particular Rename and MkDirs return false with a
nil error when the envelope holds false. -/
theorem C8_success_returns_decoded_field (env : Env) (fs : FileSystem)
    (source destination p : Path) (fm : Nat) (u : URL) (putReq getReq : Request)
    (d : HdfsJsonData) :
    (source.Name ≠ "" → destination.Name ≠ "" →
      env.buildRequestUrl fs.Config source
          [("op", OP_RENAME), ("destination", destination.Name)] = .ok u →
      (http.NewRequest env.urlParse "PUT" u.String none).1 = some putReq →
      env.requestHdfsData fs.client putReq = .ok d →
      (fs.Rename env source destination).outcome = .ret d.Boolean none
      ∧ (d.Boolean = false →
          (fs.Rename env source destination).outcome = .ret false none))
    ∧ (env.buildRequestUrl fs.Config p
          [("op", OP_MKDIRS),
            ("permission", if fm ≤ 0 ∨ fm > 1777 then "0700"
              else strconv.FormatInt (int64 fm) 8)] = .ok u →
      (http.NewRequest env.urlParse "PUT" u.String none).1 = some putReq →
      env.requestHdfsData fs.client putReq = .ok d →
      (fs.MkDirs env p fm).outcome = .ret d.Boolean none
      ∧ (d.Boolean = false → (fs.MkDirs env p fm).outcome = .ret false none))
    ∧ (env.buildRequestUrl fs.Config p [("op", OP_GETFILESTATUS)] = .ok u →
      (http.NewRequest env.urlParse "GET" u.String none).1 = some getReq →
      env.requestHdfsData fs.client getReq = .ok d →
      (fs.GetFileStatus env p).outcome = .ret d.FileStatus none)
    ∧ (env.buildRequestUrl fs.Config p [("op", OP_LISTSTATUS)] = .ok u →
      (http.NewRequest env.urlParse "GET" u.String none).1 = some getReq →
      env.requestHdfsData fs.client getReq = .ok d →
      (fs.ListStatus env p).outcome = .ret d.FileStatuses.FileStatus none)
    ∧ (env.buildRequestUrl fs.Config p [("op", OP_GETCONTENTSUMMARY)] = .ok u →
      (http.NewRequest env.urlParse "GET" u.String none).1 = some getReq →
      env.requestHdfsData fs.client getReq = .ok d →
      (fs.GetContentSummary env p).outcome = .ret d.ContentSummary none)
    ∧ (env.buildRequestUrl fs.Config p [("op", OP_GETFILECHECKSUM)] = .ok u →
      (http.NewRequest env.urlParse "GET" u.String none).1 = some getReq →
      env.requestHdfsData fs.client getReq = .ok d →
      (fs.GetFileChecksum env p).outcome = .ret d.FileChecksum none) := by
  refine ⟨?_, ?_, ?_, ?_, ?_, ?_⟩
  · intro hs hd hb hn hr
    have h : (fs.Rename env source destination).outcome = .ret d.Boolean none := by
      simp [FileSystem.Rename, hs, hd, Params.set, hb, hn, hr]
    exact ⟨h, fun hf => by rw [h, hf]⟩
  · intro hb hn hr
    have h : (fs.MkDirs env p fm).outcome = .ret d.Boolean none := by
      by_cases hfm : fm ≤ 0 ∨ fm > 1777
      · simp only [hfm, if_true] at hb
        simp only [FileSystem.MkDirs, hfm, if_true, Params.set]
        simp [hb, hn, hr]
      · simp only [hfm, if_false] at hb
        simp only [FileSystem.MkDirs, hfm, if_false, Params.set]
        simp [hb, hn, hr]
    exact ⟨h, fun hf => by rw [h, hf]⟩
  · intro hb hn hr
    simp [FileSystem.GetFileStatus, hb, hn, hr]
  · intro hb hn hr
    simp [FileSystem.ListStatus, hb, hn, hr]
  · intro hb hn hr
    simp [FileSystem.GetContentSummary, hb, hn, hr]
  · intro hb hn hr
    simp [FileSystem.GetFileChecksum, hb, hn, hr]

/-- C8 at concrete inputs: against `envOk`, whose server answers `sampleData` (with
Boolean false), every operation returns its field of `sampleData` with a nil error. -/
theorem C8_success_returns_decoded_field_witness :
    (sampleFs.Rename envOk ⟨"/data/old"⟩ ⟨"/data/new"⟩).outcome = .ret false none
    ∧ (sampleFs.MkDirs envOk ⟨"/data/dir"⟩ 493).outcome = .ret false none
    ∧ (sampleFs.GetFileStatus envOk ⟨"/data/dir"⟩).outcome
        = .ret { FileType := "FILE", Length := 42, Owner := "hdfs" } none
    ∧ (sampleFs.ListStatus envOk ⟨"/data/dir"⟩).outcome
        = .ret (some [{ FileType := "DIRECTORY", Owner := "hdfs" }]) none
    ∧ (sampleFs.GetContentSummary envOk ⟨"/data/dir"⟩).outcome
        = .ret { DirectoryCount := 2, FileCount := 5, Length := 4096 } none
    ∧ (sampleFs.GetFileChecksum envOk ⟨"/data/dir"⟩).outcome
        = .ret { Algorithm := "MD5-of-1MD5-of-512CRC32", Length := 28, Bytes := "00ff" }
            none :=
  have h := C8_success_returns_decoded_field envOk sampleFs ⟨"/data/old"⟩ ⟨"/data/new"⟩
    ⟨"/data/dir"⟩ 493 sampleUrl ⟨"PUT", sampleUrl.String, none⟩
    ⟨"GET", sampleUrl.String, none⟩ sampleData
  ⟨(h.1 (by decide) (by decide) rfl rfl rfl).2 rfl, (h.2.1 rfl rfl rfl).2 rfl,
    h.2.2.1 rfl rfl rfl, h.2.2.2.1 rfl rfl rfl, h.2.2.2.2.1 rfl rfl rfl,
    h.2.2.2.2.2 rfl rfl rfl⟩

/-! ## The permission sent by MkDirs -/

theorem octalDigit?_digitChar (k : Nat) (hk : k < 8) :
    octalDigit? (Nat.digitChar k) = some k := by
  interval_cases k <;> decide

theorem digitChar_ne_zero (k : Nat) (h0 : 0 < k) (hk : k < 8) : Nat.digitChar k ≠ '0' := by
  interval_cases k <;> decide

theorem octalStep_digitChar (a k : Nat) (hk : k < 8) :
    octalStep (some a) (Nat.digitChar k) = some (a * 8 + k) := by
  simp [octalStep, octalDigit?_digitChar k hk]

/-- Reading back the digits that `Nat.toDigitsCore 8` puts in front of `ds`. -/
theorem foldl_octalStep_toDigitsCore (fuel : Nat) :
    ∀ (n : Nat) (ds : List Char), n < fuel →
      (Nat.toDigitsCore 8 fuel n ds).foldl octalStep (some 0)
        = ds.foldl octalStep (some n) := by
  induction fuel with
  | zero => intro n ds h; omega
  | succ fuel ih =>
    intro n ds h
    have hmod : n % 8 < 8 := Nat.mod_lt _ (by decide)
    by_cases hq : n / 8 = 0
    · have hn : n % 8 = n := by omega
      have hstep := octalStep_digitChar 0 n (by omega)
      simp [Nat.toDigitsCore, hq, hn, hstep]
    · have hlt : n / 8 < fuel := by omega
      simp only [Nat.toDigitsCore, hq, if_false]
      rw [ih (n / 8) _ hlt]
      simp only [List.foldl_cons, octalStep_digitChar (n / 8) (n % 8) hmod]
      congr 2
      omega

/-- The leading digit produced by `Nat.toDigitsCore 8` for a positive number. -/
theorem toDigitsCore_head (fuel : Nat) :
    ∀ (n : Nat) (ds : List Char), 0 < n → n < fuel →
      ∃ k rest, 0 < k ∧ k < 8 ∧ Nat.toDigitsCore 8 fuel n ds = Nat.digitChar k :: rest := by
  induction fuel with
  | zero => intro n ds _ h; omega
  | succ fuel ih =>
    intro n ds h0 h
    by_cases hq : n / 8 = 0
    · refine ⟨n % 8, ds, by omega, Nat.mod_lt _ (by decide), ?_⟩
      simp [Nat.toDigitsCore, hq]
    · have hlt : n / 8 < fuel := by omega
      obtain ⟨k, rest, hk0, hk8, hk⟩ := ih (n / 8) (Nat.digitChar (n % 8) :: ds)
        (Nat.pos_of_ne_zero hq) hlt
      exact ⟨k, rest, hk0, hk8, by simp only [Nat.toDigitsCore, hq, if_false, hk]⟩

theorem FormatInt_int64_octal (fm : Nat) (h32 : fm < 2 ^ 32) :
    strconv.FormatInt (int64 fm) 8 = String.mk (Nat.toDigits 8 fm) := by
  have hmod : fm % 2 ^ 32 = fm := Nat.mod_eq_of_lt h32
  unfold strconv.FormatInt int64
  rw [hmod]
  simp

theorem octalValue?_FormatInt (fm : Nat) (h32 : fm < 2 ^ 32) (h0 : 0 < fm) :
    octalValue? (strconv.FormatInt (int64 fm) 8) = some fm
    ∧ (strconv.FormatInt (int64 fm) 8).data.head? ≠ some '0' := by
  rw [FormatInt_int64_octal fm h32]
  obtain ⟨k, rest, hk0, hk8, hk⟩ := toDigitsCore_head (fm + 1) fm [] h0 (Nat.lt_succ_self fm)
  have hv := foldl_octalStep_toDigitsCore (fm + 1) fm [] (Nat.lt_succ_self fm)
  constructor
  · simp only [octalValue?, Nat.toDigits]
    rw [hk]
    simp only
    rw [← hk, hv]
    rfl
  · simp only [Nat.toDigits, hk, List.head?_cons]
    intro h
    exact digitChar_ne_zero k hk0 hk8 (Option.some.inj h)

theorem MkDirs_sentPermission (env : Env) (fs : FileSystem) (p : Path) (fm : Nat) :
    sentPermission (fs.MkDirs env p fm).trace
      = some (if fm ≤ 0 ∨ fm > 1777 then "0700" else strconv.FormatInt (int64 fm) 8) := by
  by_cases hfm : fm ≤ 0 ∨ fm > 1777
  · simp only [FileSystem.MkDirs, hfm, if_true, Params.set]
    simp
    repeat' split
    all_goals simp [sentPermission, urlBuilds, Params.get]
  · simp only [FileSystem.MkDirs, hfm, if_false, Params.set]
    simp
    repeat' split
    all_goals simp [sentPermission, urlBuilds, Params.get]

/-- C9: for every file mode `fm` (an unsigned 32-bit value), the permission entry MkDirs
hands to buildRequestUrl is "0700" when `fm` is 0 or greater than the decimal number
1777; for `fm` from 1 to 1777 it is the base-8 numeral of `fm`: a string of octal digits
that denotes `fm` and does not start with the digit 0.  The mode 493 gives "755".  The
entry is the same for every environment, receiver and path. -/
theorem C9_MkDirs_permission_parameter (env : Env) (fs : FileSystem) (p : Path) (fm : Nat)
    (h32 : fm < 2 ^ 32) :
    ((fm = 0 ∨ fm > 1777) → sentPermission (fs.MkDirs env p fm).trace = some "0700")
    ∧ ((1 ≤ fm ∧ fm ≤ 1777) →
      ∃ s, sentPermission (fs.MkDirs env p fm).trace = some s
        ∧ octalValue? s = some fm ∧ s.data.head? ≠ some '0')
    ∧ sentPermission (fs.MkDirs env p 493).trace = some "755"
    ∧ (∀ (env2 : Env) (fs2 : FileSystem) (p2 : Path),
        sentPermission (fs2.MkDirs env2 p2 fm).trace
          = sentPermission (fs.MkDirs env p fm).trace) := by
  refine ⟨?_, ?_, ?_, ?_⟩
  · intro h
    have hfm : fm ≤ 0 ∨ fm > 1777 := by omega
    rw [MkDirs_sentPermission, if_pos hfm]
  · intro h
    have hfm : ¬ (fm ≤ 0 ∨ fm > 1777) := by omega
    refine ⟨strconv.FormatInt (int64 fm) 8, ?_, ?_⟩
    · rw [MkDirs_sentPermission, if_neg hfm]
    · exact octalValue?_FormatInt fm h32 (by omega)
  · rw [MkDirs_sentPermission]
    decide
  · intro env2 fs2 p2
    rw [MkDirs_sentPermission, MkDirs_sentPermission]

/-- C9 at concrete inputs: the modes 0 and 4095 give "0700", and the mode 1777 (decimal)
gives a numeral that denotes 1777. -/
theorem C9_MkDirs_permission_parameter_witness :
    sentPermission (sampleFs.MkDirs envOk ⟨"/data/dir"⟩ 0).trace = some "0700"
    ∧ sentPermission (sampleFs.MkDirs envOk ⟨"/data/dir"⟩ 4095).trace = some "0700"
    ∧ (∃ s, sentPermission (sampleFs.MkDirs envOk ⟨"/data/dir"⟩ 1777).trace = some s
        ∧ octalValue? s = some 1777 ∧ s.data.head? ≠ some '0')
    ∧ sentPermission (sampleFs.MkDirs envOk ⟨"/data/dir"⟩ 493).trace = some "755" :=
  ⟨(C9_MkDirs_permission_parameter envOk sampleFs ⟨"/data/dir"⟩ 0 (by decide)).1
      (Or.inl rfl),
    (C9_MkDirs_permission_parameter envOk sampleFs ⟨"/data/dir"⟩ 4095 (by decide)).1
      (Or.inr (by decide)),
    (C9_MkDirs_permission_parameter envOk sampleFs ⟨"/data/dir"⟩ 1777 (by decide)).2.1
      ⟨by decide, by decide⟩,
    (C9_MkDirs_permission_parameter envOk sampleFs ⟨"/data/dir"⟩ 493 (by decide)).2.2.1⟩

/-- C10 (the code at a failing input): for the file mode 1024 (octal 2000) MkDirs sends
the permission "2000", which denotes 1024 and so exceeds octal 1777 (decimal 1023); for
the file mode 1777 (decimal) it sends "3361".  The guard of MkDirs compares `fm` with
the decimal number 1777, not with octal 1777. -/
theorem C10_MkDirs_sends_permission_above_octal_1777 :
    sentPermission (sampleFs.MkDirs envOk ⟨"/data/dir"⟩ 1024).trace = some "2000"
    ∧ octalValue? "2000" = some 1024
    ∧ 1023 < 1024
    ∧ sentPermission (sampleFs.MkDirs envOk ⟨"/data/dir"⟩ 1777).trace = some "3361"
    ∧ octalValue? "3361" = some 1777 := by
  decide

end Gowfs
